import Mathlib

/-!
# Verification of the part-finder web agent service

Shallow embedding of `app/services/web_agent_service.py`,
`app/schemas/web_agent.py` and `app/controllers/web_agent_controller.py`.

Modelling conventions:
* Python `float` values that the service only constructs, compares to
  `None`, and copies (prices, confidence scores) are modelled as `ℚ`;
  every confidence computation in the source is exact decimal arithmetic
  (`0.5 + 0.3 + 0.1 + 0.1`, `+ 0.2`, capped by `min · 1.0`).
* JSON dictionaries are modelled as structures of `Option` fields: `none`
  means the key is absent or its value is `null` (the code treats both
  identically through `dict.get`).
* Python truthiness of a fetched value (`if scraped_data.get("price"):`)
  is `false` exactly on `none`, numeric `0`, and the empty string; the
  embedding spells those conditions out.
* The two external search calls and the scrape-and-extract call are
  network I/O; their *successful payloads* are parameters of the
  orchestrator (`shopping_results`, `organic_results`, and the `scrape`
  oracle returning `none` when the fetch or the JSON parse fails), and
  the presence of the Serper credential is a `Bool` parameter.
  Wall-clock `search_time_ms` is outside the pure model and is omitted
  from the embedded response.
-/

namespace PartFinder

/-- `SourceType.SERPER_SNIPPET.value` (fast path) from `app/schemas/web_agent.py`. -/
def serperSnippet : String := "serper_snippet"

/-- `SourceType.PAGE_SCRAPE.value` (slow path) from `app/schemas/web_agent.py`. -/
def pageScrape : String := "page_scrape"

/-- `Availability.UNKNOWN.value` from `app/schemas/web_agent.py`. -/
def availabilityUnknown : String := "Unknown"

/-- `VendorResult` from `app/schemas/web_agent.py`. -/
structure VendorResult where
  vendor_name : String
  product_title : String
  price : Option ℚ
  currency : String
  availability : String
  product_url : String
  source_type : String
  confidence_score : ℚ
  image_url : Option String
  description : Option String

/-- `PartSearchRequest` from `app/schemas/web_agent.py`. -/
structure PartSearchRequest where
  part_name : String
  part_number : Option String
  manufacturer : Option String
  location : String
  max_results : Nat
  include_scraping : Bool

/-- `PartSearchResponse` from `app/schemas/web_agent.py`
(without the wall-clock `search_time_ms` field). -/
structure PartSearchResponse where
  results : List VendorResult
  search_query : String
  total_results : Nat
  fast_path_count : Nat
  slow_path_count : Nat

/-- A raw Serper listing dictionary, restricted to the keys
`_parse_serper_result` reads.  The `price` value is kept as the string
the code obtains via `str(result["price"])`; `rating` and `reviews`
are numeric values whose truthiness the code tests. -/
structure RawResult where
  price : Option String
  rating : Option ℚ
  reviews : Option ℚ
  source : Option String
  site : Option String
  link : Option String
  title : Option String
  imageUrl : Option String
  snippet : Option String
  description : Option String

/-- The JSON object produced by the extraction model and consumed by the
merge step of `find_parts` (`scraped_data`).  `none` covers both an
absent key and a `null` value. -/
structure Extracted where
  price : Option ℚ
  currency : Option String
  availability : Option String
  vendor_name : Option String
  product_title : Option String
  description : Option String

/-! ## String scanning helpers (the regex/`in` operations of the source) -/

/-- Python substring membership over the character list of `hay`:
true iff `needle` occurs contiguously in `hay`. -/
def listContains (needle : List Char) : List Char → Bool
  | [] => needle.isEmpty
  | c :: cs => needle.isPrefixOf (c :: cs) || listContains needle cs

/-- Python `needle in hay` on strings. -/
def strContains (hay needle : String) : Bool :=
  listContains needle.toList hay.toList

/-- Python `s.replace(",", "")`. -/
def removeCommas (s : String) : String :=
  String.mk (s.toList.filter (fun c => c ≠ ','))

/-- The literal the source compares against for the euro marker: the file
stores the euro sign double-encoded as the three codepoints U+00E2 U+201A
U+00AC, so the Python string contains exactly these characters. -/
def euroMarker : String :=
  String.mk [Char.ofNat 0xE2, Char.ofNat 0x201A, Char.ofNat 0xAC]

/-- The match of `re.search(r"[\d,]+\.?\d*", ·)` starting at a position
whose first character is a digit: greedy digit run, optional dot,
then a greedy digit run (commas were removed beforehand). -/
def numAt (l : List Char) : List Char :=
  let ip := l.takeWhile Char.isDigit
  match l.drop ip.length with
  | '.' :: rest => ip ++ '.' :: rest.takeWhile Char.isDigit
  | _ => ip

/-- Leftmost match of `re.search(r"[\d,]+\.?\d*", ·)` on a comma-free
string: scan to the first digit and take the maximal match there. -/
def searchNum : List Char → Option (List Char)
  | [] => none
  | c :: cs => if c.isDigit then some (numAt (c :: cs)) else searchNum cs

/-- Decimal digits to a natural number. -/
def charsToNat (l : List Char) : Nat :=
  l.foldl (fun a c => 10 * a + (c.toNat - 48)) 0

/-- Python `float(...)` on a matched token of shape `digits(.digits?)?`. -/
def parseFloat (l : List Char) : ℚ :=
  let ip := l.takeWhile Char.isDigit
  match l.drop ip.length with
  | '.' :: fp => (charsToNat ip : ℚ) + (charsToNat fp : ℚ) / (10 : ℚ) ^ fp.length
  | _ => (charsToNat ip : ℚ)

/-- The capture of `re.search(r"https?://(?:www\.)?([^/]+)", ·)` right
after the protocol part has been consumed.  If `www.` is present but
followed by no domain character the regex backtracks and the capture
starts at `www.` itself. -/
def domainAt (rest : List Char) : Option (List Char) :=
  if ("www.".toList).isPrefixOf rest then
    let c := (rest.drop 4).takeWhile (fun ch => ch ≠ '/')
    if c.isEmpty then some (rest.takeWhile (fun ch => ch ≠ '/')) else some c
  else
    let c := rest.takeWhile (fun ch => ch ≠ '/')
    if c.isEmpty then none else some c

/-- Attempt of the domain regex at one fixed position. -/
def protoDomain (l : List Char) : Option (List Char) :=
  if ("https://".toList).isPrefixOf l then domainAt (l.drop 8)
  else if ("http://".toList).isPrefixOf l then domainAt (l.drop 7)
  else none

/-- Leftmost search of the domain regex over the whole link. -/
def searchDomain : List Char → Option (List Char)
  | [] => none
  | c :: cs =>
    match protoDomain (c :: cs) with
    | some d => some d
    | none => searchDomain cs

/-- Python truthiness of an optional numeric JSON value:
truthy iff present and nonzero. -/
def truthyNum (x : Option ℚ) : Prop := x ≠ none ∧ x ≠ some 0

instance (x : Option ℚ) : Decidable (truthyNum x) := by
  unfold truthyNum; infer_instance

/-! ## `_parse_serper_result` -/

/-- Price extraction of `_parse_serper_result`: only when the raw listing
has a `price` field, strip commas and take the first numeric match. -/
def parsedPrice (result : RawResult) : Option ℚ :=
  match result.price with
  | none => none
  | some price_str => (searchNum (removeCommas price_str).toList).map parseFloat

/-- Currency chain of `_parse_serper_result`: `currency` starts at the
`"LKR"` default and is only reassigned inside the `"price" in result`
branch, via substring tests on the *raw* price string. -/
def inferCurrency (price_str : String) : String :=
  if strContains price_str "USD" || strContains price_str "$" then "USD"
  else if strContains price_str "LKR" || strContains price_str "Rs" then "LKR"
  else if strContains price_str "EUR" || strContains price_str euroMarker then "EUR"
  else "LKR"

/-- Currency of a parsed listing (default when no `price` field). -/
def parsedCurrency (result : RawResult) : String :=
  match result.price with
  | none => "LKR"
  | some price_str => inferCurrency price_str

/-- Vendor-name extraction of `_parse_serper_result`:
`result.get("source", result.get("site", "Unknown"))`, falling back to
the link's domain when empty or `"Unknown"`. -/
def parsedVendorName (result : RawResult) : String :=
  let vendor0 := result.source.getD (result.site.getD "Unknown")
  if vendor0 = "" ∨ vendor0 = "Unknown" then
    let link := result.link.getD ""
    if link ≠ "" then
      match searchDomain link.toList with
      | some d => String.mk d
      | none => vendor0
    else vendor0
  else vendor0

/-- Confidence heuristic of `_parse_serper_result`:
base `0.5`, `+0.3` when a price was found, `+0.1` for a truthy `rating`,
`+0.1` for a truthy `reviews` field (cap applied by the caller). -/
def parseConfidence (price : Option ℚ) (result : RawResult) : ℚ :=
  let confidence : ℚ := 0.5
  let confidence := if price ≠ none then confidence + 0.3 else confidence
  let confidence := if truthyNum result.rating then confidence + 0.1 else confidence
  let confidence := if truthyNum result.reviews then confidence + 0.1 else confidence
  confidence

/-- `_parse_serper_result` from `app/services/web_agent_service.py`. -/
def parseSerperResult (result : RawResult) (source_type : String := serperSnippet) :
    VendorResult :=
  { vendor_name := parsedVendorName result
    product_title := result.title.getD "Unknown Product"
    price := parsedPrice result
    currency := parsedCurrency result
    availability := availabilityUnknown
    product_url := result.link.getD ""
    source_type := source_type
    confidence_score := min (parseConfidence (parsedPrice result) result) 1
    image_url := result.imageUrl
    description := result.snippet.orElse (fun _ => result.description) }

/-! ## Slow-path merge (`find_parts`, lines 370–390)

Each `if scraped_data.get(k):` guard is Python truthiness: the field is
overwritten only when present and neither `null`, `0`, nor `""`. The
source mutates `vendor_result` field by field; the fields are pairwise
independent, so the embedding computes each merged field value and
rebuilds the record. -/

/-- `if scraped_data.get("price"): vendor_result.price = float(scraped_data["price"])`. -/
def mergedPrice (v : VendorResult) (d : Extracted) : Option ℚ :=
  match d.price with
  | some q => if q = 0 then v.price else some q
  | none => v.price

/-- `if scraped_data.get("currency"): vendor_result.currency = scraped_data["currency"]`. -/
def mergedCurrency (v : VendorResult) (d : Extracted) : String :=
  match d.currency with
  | some c => if c = "" then v.currency else c
  | none => v.currency

/-- `if scraped_data.get("availability"): ...`. -/
def mergedAvailability (v : VendorResult) (d : Extracted) : String :=
  match d.availability with
  | some a => if a = "" then v.availability else a
  | none => v.availability

/-- `if scraped_data.get("vendor_name"): ...`. -/
def mergedVendorName (v : VendorResult) (d : Extracted) : String :=
  match d.vendor_name with
  | some n => if n = "" then v.vendor_name else n
  | none => v.vendor_name

/-- `if scraped_data.get("product_title"): ...`. -/
def mergedProductTitle (v : VendorResult) (d : Extracted) : String :=
  match d.product_title with
  | some t => if t = "" then v.product_title else t
  | none => v.product_title

/-- `if scraped_data.get("description"): ...`. -/
def mergedDescription (v : VendorResult) (d : Extracted) : Option String :=
  match d.description with
  | some s => if s = "" then v.description else some s
  | none => v.description

/-- The whole merge block of `find_parts`: conditional field overwrites,
then unconditionally `source_type = PAGE_SCRAPE` and
`confidence_score = min(confidence_score + 0.2, 1.0)`. -/
def mergeScraped (vendor_result : VendorResult) (scraped_data : Extracted) : VendorResult :=
  { vendor_result with
    price := mergedPrice vendor_result scraped_data
    currency := mergedCurrency vendor_result scraped_data
    availability := mergedAvailability vendor_result scraped_data
    vendor_name := mergedVendorName vendor_result scraped_data
    product_title := mergedProductTitle vendor_result scraped_data
    description := mergedDescription vendor_result scraped_data
    source_type := pageScrape
    confidence_score := min (vendor_result.confidence_score + 0.2) 1 }

/-! ## `find_parts` and the controller -/

/-- The Python exceptions the credential path can raise.  `Settings` in
`app/core/config.py` declares no `SERPER_API_KEY` field and sets
`extra="ignore"`, so in the committed code the read
`settings.SERPER_API_KEY` raises `AttributeError` in every environment;
the `ValueError("SERPER_API_KEY not configured")` guard on the next
line of `_search_serper` is unreachable. -/
inductive PyError where
  | attributeError
  | valueError

/-- The attribute read `settings.SERPER_API_KEY` against the committed
`Settings` class: the field does not exist (and `extra="ignore"`
discards any `SERPER_API_KEY` environment entry), so the read raises
`AttributeError` regardless of the environment. -/
def settingsSerperApiKey : Except PyError String :=
  .error .attributeError

/-- The credential guard of `_search_serper` (web_agent_service.py
lines 132–133) as the code actually executes: the attribute read runs
first and raises; only if it succeeded with a falsy value would the
`ValueError` be raised. -/
def serperCredentialCheck : Except PyError Unit :=
  match settingsSerperApiKey with
  | .error e => .error e
  | .ok key => if key = "" then .error .valueError else .ok ()

/-- `_validate_config` (web_agent_service.py lines 96–101), executed by
`WebAgentService.__init__`, which the module-level singleton on
line 413 runs at import time: its first statement already performs the
failing attribute read. -/
def validateConfig : Except PyError Unit :=
  match settingsSerperApiKey with
  | .error e => .error e
  | .ok _ => .ok ()

/-- Query construction of `find_parts` (lines 329–336):
`" ".join(...)` over `["buy", part_name]`, then `part_number` and
`manufacturer` each appended only when truthy (`if request.part_number:`
skips both `None` and the empty string), then the location. -/
def buildQuery (request : PartSearchRequest) : String :=
  let query_parts := ["buy", request.part_name]
  let query_parts := query_parts ++
    (match request.part_number with
     | some p => if p = "" then [] else [p]
     | none => [])
  let query_parts := query_parts ++
    (match request.manufacturer with
     | some m => if m = "" then [] else [m]
     | none => [])
  let query_parts := query_parts ++ [request.location]
  String.intercalate " " query_parts

/-- Fast path of `find_parts` (lines 349–352): parse the first
`max_results` shopping listings; each one increments `fast_path_count`. -/
def shoppingPhase (request : PartSearchRequest) (shopping_results : List RawResult) :
    List VendorResult :=
  (shopping_results.take request.max_results).map
    (fun raw => parseSerperResult raw serperSnippet)

/-- Organic loop of `find_parts` (lines 363–390): stop once
`max_results` results are collected; otherwise parse the listing, and
when it has no price, scraping is enabled, and it has a URL, attempt
enrichment — merging (and counting a slow-path hit) only when the
scrape returns data. -/
def organicLoop (request : PartSearchRequest) (scrape : String → Option Extracted) :
    List RawResult → List VendorResult → Nat → List VendorResult × Nat
  | [], results, slow_path_count => (results, slow_path_count)
  | raw_result :: rest, results, slow_path_count =>
    if results.length ≥ request.max_results then (results, slow_path_count)
    else
      let vendor_result := parseSerperResult raw_result serperSnippet
      if vendor_result.price = none ∧ request.include_scraping = true ∧
          vendor_result.product_url ≠ "" then
        match scrape vendor_result.product_url with
        | some scraped_data =>
          organicLoop request scrape rest
            (results ++ [mergeScraped vendor_result scraped_data]) (slow_path_count + 1)
        | none =>
          organicLoop request scrape rest (results ++ [vendor_result]) slow_path_count
      else
        organicLoop request scrape rest (results ++ [vendor_result]) slow_path_count

/-- Both collection phases of `find_parts`: the fast-path results,
extended by the organic loop, together with the slow-path counter. -/
def collectPhase (request : PartSearchRequest) (shopping_results organic_results : List RawResult)
    (scrape : String → Option Extracted) : List VendorResult × Nat :=
  organicLoop request scrape organic_results (shoppingPhase request shopping_results) 0

/-- The result list of `find_parts` before sorting: shopping results
first, then organic results, each in surface order. -/
def discovered (request : PartSearchRequest) (shopping_results organic_results : List RawResult)
    (scrape : String → Option Extracted) : List VendorResult :=
  (collectPhase request shopping_results organic_results scrape).1

/-- The comparison `find_parts` sorts with:
`results.sort(key=lambda x: x.confidence_score, reverse=True)` is a
stable descending sort by confidence. -/
def confDesc (a b : VendorResult) : Bool :=
  decide (b.confidence_score ≤ a.confidence_score)

/-- `find_parts` from `app/services/web_agent_service.py`.
`serper_key_configured` abstracts whether the credential read in the
first Serper call succeeds with a usable key; in the committed code it
is always `false` — the read raises `AttributeError` (see
`settingsSerperApiKey`), which `find_parts`'s `except` clause logs and
re-raises, aborting the whole request.  On the (counterfactual) success
path the response carries the sorted results and the counters. -/
def findParts (serper_key_configured : Bool) (request : PartSearchRequest)
    (shopping_results organic_results : List RawResult)
    (scrape : String → Option Extracted) : Except PyError PartSearchResponse :=
  if serper_key_configured = false then .error .attributeError
  else
    let fast_path_count := (shoppingPhase request shopping_results).length
    let (results, slow_path_count) :=
      collectPhase request shopping_results organic_results scrape
    let sorted := results.mergeSort confDesc
    .ok { results := sorted
          search_query := buildQuery request
          total_results := sorted.length
          fast_path_count := fast_path_count
          slow_path_count := slow_path_count }

/-- `status.HTTP_503_SERVICE_UNAVAILABLE`. -/
def HTTP_503_SERVICE_UNAVAILABLE : Nat := 503

/-- `status.HTTP_500_INTERNAL_SERVER_ERROR`. -/
def HTTP_500_INTERNAL_SERVER_ERROR : Nat := 500

/-- The exception dispatch of `search_parts_controller`
(`app/controllers/web_agent_controller.py` lines 55–69):
`except ValueError` → HTTP 503; every other exception falls to the
generic `except Exception` handler → HTTP 500. -/
def controllerStatus : PyError → Nat
  | .valueError => HTTP_503_SERVICE_UNAVAILABLE
  | .attributeError => HTTP_500_INTERNAL_SERVER_ERROR

/-- `search_parts_controller` from `app/controllers/web_agent_controller.py`. -/
def searchPartsController (serper_key_configured : Bool) (request : PartSearchRequest)
    (shopping_results organic_results : List RawResult)
    (scrape : String → Option Extracted) : Except Nat PartSearchResponse :=
  match findParts serper_key_configured request shopping_results organic_results scrape with
  | .ok response => .ok response
  | .error e => .error (controllerStatus e)

/-! ## Shared lemmas about the embedding -/

/-- Unfolding of `findParts` when the credential is configured. -/
theorem findParts_shape (req : PartSearchRequest) (sh org : List RawResult)
    (sc : String → Option Extracted) :
    findParts true req sh org sc =
      .ok { results := (discovered req sh org sc).mergeSort confDesc
            search_query := buildQuery req
            total_results := ((discovered req sh org sc).mergeSort confDesc).length
            fast_path_count := (shoppingPhase req sh).length
            slow_path_count := (collectPhase req sh org sc).2 } := rfl

/-- Inversion: a successful `findParts` call pins down the response. -/
theorem findParts_ok_inv {k : Bool} {req : PartSearchRequest} {sh org : List RawResult}
    {sc : String → Option Extracted} {resp : PartSearchResponse}
    (h : findParts k req sh org sc = Except.ok resp) :
    k = true ∧
    resp = { results := (discovered req sh org sc).mergeSort confDesc
             search_query := buildQuery req
             total_results := ((discovered req sh org sc).mergeSort confDesc).length
             fast_path_count := (shoppingPhase req sh).length
             slow_path_count := (collectPhase req sh org sc).2 } := by
  cases k with
  | false => exact absurd h (by simp [findParts])
  | true =>
    rw [findParts_shape] at h
    injection h with h
    exact ⟨rfl, h.symm⟩

/-- One-step unfolding of the organic loop. -/
theorem organicLoop_cons (request : PartSearchRequest) (scrape : String → Option Extracted)
    (raw : RawResult) (rest : List RawResult) (results : List VendorResult) (slow : Nat) :
    organicLoop request scrape (raw :: rest) results slow =
      if results.length ≥ request.max_results then (results, slow)
      else if (parseSerperResult raw serperSnippet).price = none ∧
          request.include_scraping = true ∧
          (parseSerperResult raw serperSnippet).product_url ≠ "" then
        match scrape (parseSerperResult raw serperSnippet).product_url with
        | some d =>
          organicLoop request scrape rest
            (results ++ [mergeScraped (parseSerperResult raw serperSnippet) d]) (slow + 1)
        | none =>
          organicLoop request scrape rest
            (results ++ [parseSerperResult raw serperSnippet]) slow
      else
        organicLoop request scrape rest
          (results ++ [parseSerperResult raw serperSnippet]) slow := rfl

/-- Everything the organic loop emits is either an initial (fast-path)
result, a freshly parsed organic listing, or a parsed listing merged
with extraction data. -/
theorem organicLoop_mem (request : PartSearchRequest) (scrape : String → Option Extracted) :
    ∀ (org : List RawResult) (init : List VendorResult) (slow : Nat) (v : VendorResult),
      v ∈ (organicLoop request scrape org init slow).1 →
      v ∈ init ∨ (∃ raw, v = parseSerperResult raw serperSnippet) ∨
        (∃ raw d, v = mergeScraped (parseSerperResult raw serperSnippet) d) := by
  intro org
  induction org with
  | nil => intro init slow v h; exact Or.inl h
  | cons raw rest ih =>
    intro init slow v h
    rw [organicLoop_cons] at h
    by_cases hlen : init.length ≥ request.max_results
    · rw [if_pos hlen] at h; exact Or.inl h
    · rw [if_neg hlen] at h
      by_cases htr : (parseSerperResult raw serperSnippet).price = none ∧
          request.include_scraping = true ∧
          (parseSerperResult raw serperSnippet).product_url ≠ ""
      · rw [if_pos htr] at h
        cases hscr : scrape (parseSerperResult raw serperSnippet).product_url with
        | some d =>
          simp only [hscr] at h
          rcases ih _ _ _ h with hi | hq
          · rcases List.mem_append.mp hi with h1 | h2
            · exact Or.inl h1
            · exact Or.inr (Or.inr ⟨raw, d, by simpa using h2⟩)
          · exact Or.inr hq
        | none =>
          simp only [hscr] at h
          rcases ih _ _ _ h with hi | hq
          · rcases List.mem_append.mp hi with h1 | h2
            · exact Or.inl h1
            · exact Or.inr (Or.inl ⟨raw, by simpa using h2⟩)
          · exact Or.inr hq
      · rw [if_neg htr] at h
        rcases ih _ _ _ h with hi | hq
        · rcases List.mem_append.mp hi with h1 | h2
          · exact Or.inl h1
          · exact Or.inr (Or.inl ⟨raw, by simpa using h2⟩)
        · exact Or.inr hq

/-- Counter discipline of the organic loop: the initial results stay a
prefix, the slow counter only grows, it grows by at most the number of
appended results, and the collected length never exceeds the
`max_results` budget (unless it already did). -/
theorem organicLoop_spec (request : PartSearchRequest) (scrape : String → Option Extracted) :
    ∀ (org : List RawResult) (init : List VendorResult) (slow : Nat),
      (∃ t, init ++ t = (organicLoop request scrape org init slow).1) ∧
      slow ≤ (organicLoop request scrape org init slow).2 ∧
      (organicLoop request scrape org init slow).2 - slow ≤
        (organicLoop request scrape org init slow).1.length - init.length ∧
      (organicLoop request scrape org init slow).1.length ≤
        max init.length request.max_results := by
  intro org
  induction org with
  | nil =>
    intro init slow
    exact ⟨⟨[], by simp [organicLoop]⟩, le_refl _, by simp [organicLoop],
      by simp [organicLoop]⟩
  | cons raw rest ih =>
    intro init slow
    rw [organicLoop_cons]
    by_cases hlen : init.length ≥ request.max_results
    · rw [if_pos hlen]
      exact ⟨⟨[], by simp⟩, le_refl _, by simp, le_max_left _ _⟩
    · rw [if_neg hlen]
      by_cases htr : (parseSerperResult raw serperSnippet).price = none ∧
          request.include_scraping = true ∧
          (parseSerperResult raw serperSnippet).product_url ≠ ""
      · rw [if_pos htr]
        cases hscr : scrape (parseSerperResult raw serperSnippet).product_url with
        | some d =>
          simp only [hscr]
          obtain ⟨⟨t, ht⟩, h1, h2, h3⟩ :=
            ih (init ++ [mergeScraped (parseSerperResult raw serperSnippet) d]) (slow + 1)
          refine ⟨⟨mergeScraped (parseSerperResult raw serperSnippet) d :: t, ?_⟩, ?_, ?_, ?_⟩
          · rw [← ht]; simp
          · omega
          · have hlen2 := congrArg List.length ht
            simp at hlen2
            simp only [List.length_append, List.length_cons, List.length_nil] at h2
            omega
          · simp at h3
            omega
        | none =>
          simp only [hscr]
          obtain ⟨⟨t, ht⟩, h1, h2, h3⟩ :=
            ih (init ++ [parseSerperResult raw serperSnippet]) slow
          refine ⟨⟨parseSerperResult raw serperSnippet :: t, ?_⟩, h1, ?_, ?_⟩
          · rw [← ht]; simp
          · have hlen2 := congrArg List.length ht
            simp at hlen2
            simp only [List.length_append, List.length_cons, List.length_nil] at h2
            omega
          · simp at h3
            omega
      · rw [if_neg htr]
        obtain ⟨⟨t, ht⟩, h1, h2, h3⟩ :=
          ih (init ++ [parseSerperResult raw serperSnippet]) slow
        refine ⟨⟨parseSerperResult raw serperSnippet :: t, ?_⟩, h1, ?_, ?_⟩
        · rw [← ht]; simp
        · have hlen2 := congrArg List.length ht
          simp at hlen2
          simp only [List.length_append, List.length_cons, List.length_nil] at h2
          omega
        · simp at h3
          omega

/-- With scraping disabled the organic loop never increments the slow
counter and only appends freshly parsed listings. -/
theorem organicLoop_no_scrape (request : PartSearchRequest)
    (scrape : String → Option Extracted) (hs : request.include_scraping = false) :
    ∀ (org : List RawResult) (init : List VendorResult) (slow : Nat),
      (organicLoop request scrape org init slow).2 = slow ∧
      ∀ v ∈ (organicLoop request scrape org init slow).1,
        v ∈ init ∨ ∃ raw, v = parseSerperResult raw serperSnippet := by
  intro org
  induction org with
  | nil => intro init slow; exact ⟨rfl, fun v hv => Or.inl hv⟩
  | cons raw rest ih =>
    intro init slow
    rw [organicLoop_cons]
    by_cases hlen : init.length ≥ request.max_results
    · rw [if_pos hlen]
      exact ⟨rfl, fun v hv => Or.inl hv⟩
    · rw [if_neg hlen, if_neg (by simp [hs])]
      obtain ⟨h1, h2⟩ := ih (init ++ [parseSerperResult raw serperSnippet]) slow
      refine ⟨h1, fun v hv => ?_⟩
      rcases h2 v hv with hi | hq
      · rcases List.mem_append.mp hi with ha | hb
        · exact Or.inl ha
        · exact Or.inr ⟨raw, by simpa using hb⟩
      · exact Or.inr hq

/-- The base confidence chain is at least `0.5`. -/
theorem parseConfidence_ge_half (p : Option ℚ) (r : RawResult) :
    (0.5 : ℚ) ≤ parseConfidence p r := by
  simp only [parseConfidence]
  split_ifs <;> norm_num

/-- Parsed listings have nonnegative confidence. -/
theorem parse_conf_nonneg (r : RawResult) (st : String) :
    0 ≤ (parseSerperResult r st).confidence_score :=
  le_min (le_trans (by norm_num) (parseConfidence_ge_half _ r)) (by norm_num)

/-- Parsed listings have confidence at most one. -/
theorem parse_conf_le_one (r : RawResult) (st : String) :
    (parseSerperResult r st).confidence_score ≤ 1 :=
  min_le_right _ _

/-- Merged listings have confidence at most one. -/
theorem merge_conf_le_one (v : VendorResult) (d : Extracted) :
    (mergeScraped v d).confidence_score ≤ 1 :=
  min_le_right _ _

/-- Merging keeps confidence nonnegative. -/
theorem merge_conf_nonneg (v : VendorResult) (d : Extracted)
    (h : 0 ≤ v.confidence_score) : 0 ≤ (mergeScraped v d).confidence_score :=
  le_min (by linarith) (by norm_num)

/-! ## Concrete fixtures used by witnesses and counterexamples -/

/-- A valid request (fast path only). -/
def reqBase : PartSearchRequest :=
  { part_name := "bearing", part_number := none, manufacturer := none,
    location := "Sri Lanka", max_results := 10, include_scraping := false }

/-- A valid request with scraping enabled. -/
def reqScrape : PartSearchRequest :=
  { part_name := "bearing", part_number := none, manufacturer := none,
    location := "Sri Lanka", max_results := 10, include_scraping := true }

/-- A raw Serper listing with no `link` key. -/
def rawNoLink : RawResult :=
  { price := none, rating := none, reviews := none, source := some "ACME",
    site := none, link := none, title := some "B1", imageUrl := none,
    snippet := none, description := none }

/-- The parsed form of `rawNoLink`. -/
def vNoLink : VendorResult := parseSerperResult rawNoLink serperSnippet

/-- Response of `findParts` on a single shopping listing. -/
def respSingle : PartSearchResponse :=
  { results := [vNoLink], search_query := buildQuery reqBase,
    total_results := 1, fast_path_count := 1, slow_path_count := 0 }

/-- Response of `findParts` on two identical shopping listings. -/
def respDup : PartSearchResponse :=
  { results := [vNoLink, vNoLink], search_query := buildQuery reqBase,
    total_results := 2, fast_path_count := 2, slow_path_count := 0 }

/-- Concrete evaluation: one shopping listing, no organic listings. -/
theorem eval_single :
    findParts true reqBase [rawNoLink] [] (fun _ => none) = Except.ok respSingle := by
  rw [findParts_shape]
  have hd : discovered reqBase [rawNoLink] [] (fun _ => none) = [vNoLink] := rfl
  rw [hd, List.mergeSort_singleton]
  rfl

/-- Concrete evaluation: two identical shopping listings. -/
theorem eval_dup :
    findParts true reqBase [rawNoLink, rawNoLink] [] (fun _ => none) = Except.ok respDup := by
  rw [findParts_shape]
  have hd : discovered reqBase [rawNoLink, rawNoLink] [] (fun _ => none) =
      [vNoLink, vNoLink] := rfl
  have hs : List.Pairwise (fun a b : VendorResult => confDesc a b) [vNoLink, vNoLink] := by
    simp [confDesc]
  rw [hd, List.mergeSort_of_sorted hs]
  rfl

/-- A base vendor result for merge experiments (no price, no description). -/
def vW : VendorResult :=
  { vendor_name := "V", product_title := "T", price := none, currency := "LKR",
    availability := "Unknown", product_url := "http://x", source_type := serperSnippet,
    confidence_score := 1, image_url := none, description := none }

/-- Extraction data with every field truthy. -/
def dW : Extracted :=
  { price := some 1, currency := some "USD", availability := some "In Stock",
    vendor_name := some "W", product_title := some "PT", description := some "D" }

/-- Extraction data with a present, non-null, but zero price. -/
def dZero : Extracted :=
  { price := some 0, currency := none, availability := none,
    vendor_name := none, product_title := none, description := none }

/-! ## C1 — the enrichment merge

The claim says every *present and non-null* extracted field overwrites;
the code instead tests Python truthiness (`if scraped_data.get(k):`),
so a present, non-null `price` of `0` (or an empty-string field) does
NOT overwrite.  Corrected to the truthiness condition. -/

/-- C1 (counterexample to the claim as stated): the extraction carries a
present, non-null price `0`, yet the merged result keeps its old `None`
price instead of being overwritten with `0`. -/
theorem merge_nonnull_not_overwritten_cex :
    dZero.price = some 0 ∧
    vW.price = none ∧
    (mergeScraped vW dZero).price = none ∧
    (mergeScraped vW dZero).price ≠ some 0 := by
  have h : (mergeScraped vW dZero).price = none := by
    show mergedPrice vW dZero = none
    simp [mergedPrice, dZero, vW]
  exact ⟨rfl, rfl, h, by rw [h]; simp⟩

/-- C1 (amended): during slow-path enrichment, each extracted field that
is present with a truthy value (non-null, nonzero for the numeric price,
nonempty for strings) overwrites the corresponding `VendorResult` field;
a field that is absent, null, zero, or empty leaves it unchanged. -/
theorem merge_truthy_overwrite (v : VendorResult) (d : Extracted) :
    (∀ q : ℚ, d.price = some q → q ≠ 0 → (mergeScraped v d).price = some q) ∧
    (d.price = none ∨ d.price = some 0 → (mergeScraped v d).price = v.price) ∧
    (∀ c, d.currency = some c → c ≠ "" → (mergeScraped v d).currency = c) ∧
    (d.currency = none ∨ d.currency = some "" →
      (mergeScraped v d).currency = v.currency) ∧
    (∀ a, d.availability = some a → a ≠ "" → (mergeScraped v d).availability = a) ∧
    (d.availability = none ∨ d.availability = some "" →
      (mergeScraped v d).availability = v.availability) ∧
    (∀ n, d.vendor_name = some n → n ≠ "" → (mergeScraped v d).vendor_name = n) ∧
    (d.vendor_name = none ∨ d.vendor_name = some "" →
      (mergeScraped v d).vendor_name = v.vendor_name) ∧
    (∀ t, d.product_title = some t → t ≠ "" → (mergeScraped v d).product_title = t) ∧
    (d.product_title = none ∨ d.product_title = some "" →
      (mergeScraped v d).product_title = v.product_title) ∧
    (∀ s, d.description = some s → s ≠ "" → (mergeScraped v d).description = some s) ∧
    (d.description = none ∨ d.description = some "" →
      (mergeScraped v d).description = v.description) := by
  refine ⟨?_, ?_, ?_, ?_, ?_, ?_, ?_, ?_, ?_, ?_, ?_, ?_⟩
  · intro q hq h0
    show mergedPrice v d = some q
    simp [mergedPrice, hq, h0]
  · rintro (hp | hp) <;> (show mergedPrice v d = v.price) <;> simp [mergedPrice, hp]
  · intro c hc h0
    show mergedCurrency v d = c
    simp [mergedCurrency, hc, h0]
  · rintro (hp | hp) <;> (show mergedCurrency v d = v.currency) <;>
      simp [mergedCurrency, hp]
  · intro a ha h0
    show mergedAvailability v d = a
    simp [mergedAvailability, ha, h0]
  · rintro (hp | hp) <;> (show mergedAvailability v d = v.availability) <;>
      simp [mergedAvailability, hp]
  · intro n hn h0
    show mergedVendorName v d = n
    simp [mergedVendorName, hn, h0]
  · rintro (hp | hp) <;> (show mergedVendorName v d = v.vendor_name) <;>
      simp [mergedVendorName, hp]
  · intro t ht h0
    show mergedProductTitle v d = t
    simp [mergedProductTitle, ht, h0]
  · rintro (hp | hp) <;> (show mergedProductTitle v d = v.product_title) <;>
      simp [mergedProductTitle, hp]
  · intro s hs h0
    show mergedDescription v d = some s
    simp [mergedDescription, hs, h0]
  · rintro (hp | hp) <;> (show mergedDescription v d = v.description) <;>
      simp [mergedDescription, hp]

/-- Witness for C1 (amended) at concrete inputs. -/
theorem merge_truthy_overwrite_witness :
    dW.price = some 1 ∧ (1 : ℚ) ≠ 0 ∧ (mergeScraped vW dW).price = some 1 ∧
    dW.currency = some "USD" ∧ "USD" ≠ "" ∧ (mergeScraped vW dW).currency = "USD" ∧
    dZero.price = some 0 ∧ (mergeScraped vW dZero).price = vW.price :=
  ⟨rfl, one_ne_zero, (merge_truthy_overwrite vW dW).1 1 rfl one_ne_zero,
   rfl, by decide, (merge_truthy_overwrite vW dW).2.2.1 "USD" rfl (by decide),
   rfl, (merge_truthy_overwrite vW dZero).2.1 (Or.inr rfl)⟩

/-! ## C2 — product_url non-empty and unique

False on the code: `product_url` is `result.get("link", "")`, which is
empty when the listing has no link, and nothing deduplicates listings,
so one response can carry two results with the same (even empty) URL. -/

/-- C2 (counterexample to the claim as stated): a response returned by
`findParts` whose two results both have the empty `product_url` —
neither non-empty nor unique. -/
theorem product_url_unique_cex :
    findParts true reqBase [rawNoLink, rawNoLink] [] (fun _ => none) = Except.ok respDup ∧
    respDup.results.map (fun v => v.product_url) = ["", ""] ∧
    ¬ (∀ v ∈ respDup.results, v.product_url ≠ "") := by
  refine ⟨eval_dup, rfl, fun hall => ?_⟩
  exact hall vNoLink (by simp [respDup]) rfl

/-- C2 (amended): `product_url` is exactly the raw listing's `link`
field, defaulting to the empty string when the listing has none; the
service guarantees neither non-emptiness nor uniqueness. -/
theorem product_url_equals_link (raw : RawResult) (st : String) :
    (parseSerperResult raw st).product_url = raw.link.getD "" := rfl

/-! ## C3 — enrichment failure keeps the listing untouched -/

/-- C3: when the slow path yields no data for an organic listing (page
fetch or extraction-JSON parse failed, `_scrape_and_parse` returned
`None`), the loop appends the listing exactly as parsed on the fast path
— same price, availability, confidence — with fast-path `source_type`,
and the slow-path counter is not incremented for it. -/
theorem enrichment_failure_keeps_listing (request : PartSearchRequest)
    (scrape : String → Option Extracted) (raw : RawResult) (rest : List RawResult)
    (results : List VendorResult) (slow : Nat)
    (hlen : results.length < request.max_results)
    (hfail : scrape (parseSerperResult raw serperSnippet).product_url = none) :
    organicLoop request scrape (raw :: rest) results slow =
      organicLoop request scrape rest
        (results ++ [parseSerperResult raw serperSnippet]) slow ∧
    (parseSerperResult raw serperSnippet).source_type = serperSnippet := by
  refine ⟨?_, rfl⟩
  rw [organicLoop_cons, if_neg (not_le.mpr hlen)]
  by_cases htr : (parseSerperResult raw serperSnippet).price = none ∧
      request.include_scraping = true ∧
      (parseSerperResult raw serperSnippet).product_url ≠ ""
  · rw [if_pos htr]
    simp only [hfail]
  · rw [if_neg htr]

/-- Witness for C3 at a concrete listing whose enrichment fails. -/
theorem enrichment_failure_keeps_listing_witness :
    ([] : List VendorResult).length < reqScrape.max_results ∧
    (organicLoop reqScrape (fun _ => none) [rawNoLink] [] 0 =
      organicLoop reqScrape (fun _ => none) []
        ([] ++ [parseSerperResult rawNoLink serperSnippet]) 0 ∧
     (parseSerperResult rawNoLink serperSnippet).source_type = serperSnippet) :=
  ⟨by decide,
   enrichment_failure_keeps_listing reqScrape (fun _ => none) rawNoLink [] [] 0
     (by decide) rfl⟩

/-! ## C4 — confidence scores stay in [0, 1] -/

/-- C4: every `VendorResult` the service produces or updates has a
confidence score in the closed interval `[0, 1]`: freshly parsed Serper
listings for any raw input, merged listings for any extraction (given
the schema bound `0 ≤ confidence_score` on the input), and every result
in any response `findParts` returns. -/
theorem confidence_in_unit_interval :
    (∀ (raw : RawResult) (st : String),
      0 ≤ (parseSerperResult raw st).confidence_score ∧
        (parseSerperResult raw st).confidence_score ≤ 1) ∧
    (∀ (v : VendorResult) (d : Extracted), 0 ≤ v.confidence_score →
      0 ≤ (mergeScraped v d).confidence_score ∧
        (mergeScraped v d).confidence_score ≤ 1) ∧
    (∀ (k : Bool) (req : PartSearchRequest) (sh org : List RawResult)
        (sc : String → Option Extracted) (resp : PartSearchResponse),
      findParts k req sh org sc = Except.ok resp →
      ∀ v ∈ resp.results, 0 ≤ v.confidence_score ∧ v.confidence_score ≤ 1) := by
  refine ⟨fun raw st => ⟨parse_conf_nonneg raw st, parse_conf_le_one raw st⟩,
    fun v d h => ⟨merge_conf_nonneg v d h, merge_conf_le_one v d⟩, ?_⟩
  intro k req sh org sc resp h v hv
  obtain ⟨hk, hresp⟩ := findParts_ok_inv h
  subst hresp
  have hv2 : v ∈ (discovered req sh org sc).mergeSort confDesc := hv
  rw [List.mem_mergeSort] at hv2
  rcases organicLoop_mem req sc org (shoppingPhase req sh) 0 v hv2 with
    hi | ⟨raw, rfl⟩ | ⟨raw, d, rfl⟩
  · obtain ⟨raw, _, rfl⟩ := List.mem_map.mp hi
    exact ⟨parse_conf_nonneg raw serperSnippet, parse_conf_le_one raw serperSnippet⟩
  · exact ⟨parse_conf_nonneg raw serperSnippet, parse_conf_le_one raw serperSnippet⟩
  · exact ⟨merge_conf_nonneg _ d (parse_conf_nonneg raw serperSnippet),
      merge_conf_le_one _ d⟩

/-- Witness for C4 on a concrete, successfully returned response. -/
theorem confidence_in_unit_interval_witness :
    findParts true reqBase [rawNoLink] [] (fun _ => none) = Except.ok respSingle ∧
    ∀ v ∈ respSingle.results, 0 ≤ v.confidence_score ∧ v.confidence_score ≤ 1 :=
  ⟨eval_single,
   confidence_in_unit_interval.2.2 true reqBase [rawNoLink] [] (fun _ => none)
     respSingle eval_single⟩

/-! ## C5 — enrichment never lowers confidence, never reverts provenance -/

/-- C5: for every `VendorResult` (whose confidence respects the schema
bound `≤ 1`), the enrichment merge yields a confidence score that is at
least the pre-merge one, and it sets `source_type` to the slow-path
value — in particular no merge ever turns a slow-path result back into
a fast-path one. -/
theorem enrichment_confidence_monotone (v : VendorResult) (d : Extracted)
    (h : v.confidence_score ≤ 1) :
    v.confidence_score ≤ (mergeScraped v d).confidence_score ∧
    (mergeScraped v d).source_type = pageScrape ∧
    (mergeScraped v d).source_type ≠ serperSnippet := by
  refine ⟨?_, rfl, ?_⟩
  · show v.confidence_score ≤ min (v.confidence_score + 0.2) 1
    exact le_min (by linarith) h
  · show pageScrape ≠ serperSnippet
    decide

/-- Witness for C5 at a concrete result and extraction. -/
theorem enrichment_confidence_monotone_witness :
    vW.confidence_score ≤ 1 ∧
    (vW.confidence_score ≤ (mergeScraped vW dW).confidence_score ∧
     (mergeScraped vW dW).source_type = pageScrape ∧
     (mergeScraped vW dW).source_type ≠ serperSnippet) :=
  ⟨le_refl 1, enrichment_confidence_monotone vW dW (le_refl 1)⟩

/-! ## C6 — descending, stable ordering of results -/

/-- The sort comparison is transitive. -/
theorem confDesc_trans : ∀ a b c : VendorResult,
    confDesc a b → confDesc b c → confDesc a c := by
  intro a b c hab hbc
  simp only [confDesc, decide_eq_true_eq] at *
  exact le_trans hbc hab

/-- The sort comparison is total. -/
theorem confDesc_total : ∀ a b : VendorResult, confDesc a b || confDesc b a := by
  intro a b
  simp only [confDesc]
  rcases le_total a.confidence_score b.confidence_score with h1 | h1 <;> simp [h1]

/-- The sorted list is pairwise descending in confidence. -/
theorem mergeSort_confDesc_sorted (L : List VendorResult) :
    (L.mergeSort confDesc).Pairwise
      (fun a b => b.confidence_score ≤ a.confidence_score) :=
  (List.sorted_mergeSort confDesc_trans confDesc_total L).imp
    (fun hab => by simpa [confDesc] using hab)

/-- Stability: the sort does not reorder results of equal confidence —
selecting any confidence level yields the same subsequence before and
after sorting. -/
theorem mergeSort_confDesc_filter (L : List VendorResult) (q : ℚ) :
    (L.mergeSort confDesc).filter (fun v => decide (v.confidence_score = q)) =
      L.filter (fun v => decide (v.confidence_score = q)) := by
  set p : VendorResult → Bool := fun v => decide (v.confidence_score = q) with hp
  have hfs : (L.filter p).Pairwise (fun a b => confDesc a b) := by
    apply List.pairwise_of_forall_mem_list
    intro a ha b hb
    have ha2 := (List.mem_filter.mp ha).2
    have hb2 := (List.mem_filter.mp hb).2
    simp only [hp, decide_eq_true_eq] at ha2 hb2
    simp [confDesc, ha2, hb2]
  have hsub : List.Sublist (L.filter p) (L.mergeSort confDesc) :=
    List.sublist_mergeSort confDesc_trans confDesc_total hfs (List.filter_sublist L)
  have hsub2 : List.Sublist ((L.filter p).filter p) ((L.mergeSort confDesc).filter p) :=
    hsub.filter p
  simp only [List.filter_filter, Bool.and_self] at hsub2
  have hperm : List.Perm ((L.mergeSort confDesc).filter p) (L.filter p) :=
    (List.mergeSort_perm L confDesc).filter p
  exact (hsub2.eq_of_length hperm.length_eq.symm).symm

/-- C6: every response of `findParts` lists its results in descending
confidence order; the pre-sort discovery order is shopping results
first, then organic results (surface order); and results with equal
confidence keep their relative discovery order through the sort. -/
theorem results_sorted_stable (k : Bool) (req : PartSearchRequest)
    (sh org : List RawResult) (sc : String → Option Extracted)
    (resp : PartSearchResponse)
    (h : findParts k req sh org sc = Except.ok resp) :
    resp.results.Pairwise (fun a b => b.confidence_score ≤ a.confidence_score) ∧
    (∃ t, shoppingPhase req sh ++ t = discovered req sh org sc) ∧
    ∀ q : ℚ, resp.results.filter (fun v => decide (v.confidence_score = q)) =
      (discovered req sh org sc).filter (fun v => decide (v.confidence_score = q)) := by
  obtain ⟨hk, hresp⟩ := findParts_ok_inv h
  subst hresp
  exact ⟨mergeSort_confDesc_sorted _,
    (organicLoop_spec req sc org (shoppingPhase req sh) 0).1,
    fun q => mergeSort_confDesc_filter _ q⟩

/-- Witness for C6 on a concrete returned response. -/
theorem results_sorted_stable_witness :
    findParts true reqBase [rawNoLink] [] (fun _ => none) = Except.ok respSingle ∧
    respSingle.results.Pairwise
      (fun a b => b.confidence_score ≤ a.confidence_score) ∧
    (∃ t, shoppingPhase reqBase [rawNoLink] ++ t =
      discovered reqBase [rawNoLink] [] (fun _ => none)) :=
  ⟨eval_single,
   (results_sorted_stable true reqBase [rawNoLink] [] (fun _ => none)
     respSingle eval_single).1,
   (results_sorted_stable true reqBase [rawNoLink] [] (fun _ => none)
     respSingle eval_single).2.1⟩

/-! ## C7 — counter arithmetic of the response -/

/-- Number of results contributed by the organic phase. -/
def organicSourcedCount (req : PartSearchRequest) (sh org : List RawResult)
    (sc : String → Option Extracted) : Nat :=
  (discovered req sh org sc).length - (shoppingPhase req sh).length

/-- C7: in every response `findParts` returns, `total_results` equals
the length of `results`, which equals `fast_path_count` plus the number
of organic-sourced results; `slow_path_count` never exceeds the number
of organic-sourced results; and `total_results` never exceeds the
request's `max_results`. -/
theorem response_counters_consistent (k : Bool) (req : PartSearchRequest)
    (sh org : List RawResult) (sc : String → Option Extracted)
    (resp : PartSearchResponse)
    (h : findParts k req sh org sc = Except.ok resp) :
    resp.total_results = resp.results.length ∧
    resp.results.length = resp.fast_path_count + organicSourcedCount req sh org sc ∧
    resp.slow_path_count ≤ organicSourcedCount req sh org sc ∧
    resp.total_results ≤ req.max_results := by
  obtain ⟨hk, hresp⟩ := findParts_ok_inv h
  subst hresp
  obtain ⟨⟨t, ht⟩, h1, h2, h3⟩ := organicLoop_spec req sc org (shoppingPhase req sh) 0
  have ht2 : shoppingPhase req sh ++ t = discovered req sh org sc := ht
  have hlenL : (shoppingPhase req sh).length + t.length =
      (discovered req sh org sc).length := by
    rw [← ht2, List.length_append]
  have hml : ((discovered req sh org sc).mergeSort confDesc).length =
      (discovered req sh org sc).length := List.length_mergeSort _
  have h2d : (collectPhase req sh org sc).2 - 0 ≤
      (discovered req sh org sc).length - (shoppingPhase req sh).length := h2
  have h3d : (discovered req sh org sc).length ≤
      max (shoppingPhase req sh).length req.max_results := h3
  have hf : (shoppingPhase req sh).length ≤ req.max_results := by
    show ((sh.take req.max_results).map
      (fun raw => parseSerperResult raw serperSnippet)).length ≤ req.max_results
    simp only [List.length_map, List.length_take]
    omega
  refine ⟨rfl, ?_, ?_, ?_⟩
  · show ((discovered req sh org sc).mergeSort confDesc).length =
      (shoppingPhase req sh).length + organicSourcedCount req sh org sc
    rw [hml]
    unfold organicSourcedCount
    omega
  · show (collectPhase req sh org sc).2 ≤ organicSourcedCount req sh org sc
    unfold organicSourcedCount
    omega
  · show ((discovered req sh org sc).mergeSort confDesc).length ≤ req.max_results
    rw [hml]
    omega

/-- Witness for C7 on a concrete returned response. -/
theorem response_counters_consistent_witness :
    findParts true reqBase [rawNoLink] [] (fun _ => none) = Except.ok respSingle ∧
    (respSingle.total_results = respSingle.results.length ∧
     respSingle.results.length = respSingle.fast_path_count +
       organicSourcedCount reqBase [rawNoLink] [] (fun _ => none) ∧
     respSingle.slow_path_count ≤
       organicSourcedCount reqBase [rawNoLink] [] (fun _ => none) ∧
     respSingle.total_results ≤ reqBase.max_results) :=
  ⟨eval_single,
   response_counters_consistent true reqBase [rawNoLink] [] (fun _ => none)
     respSingle eval_single⟩

/-! ## C8 — scraping disabled forces a pure fast-path response -/

/-- C8: whenever the request has `include_scraping = False`, any
response `findParts` returns has `slow_path_count = 0` and contains no
result with the slow-path `source_type`, whatever the search surface
returned. -/
theorem no_scraping_no_slow_path (k : Bool) (req : PartSearchRequest)
    (sh org : List RawResult) (sc : String → Option Extracted)
    (resp : PartSearchResponse)
    (hs : req.include_scraping = false)
    (h : findParts k req sh org sc = Except.ok resp) :
    resp.slow_path_count = 0 ∧ ∀ v ∈ resp.results, v.source_type ≠ pageScrape := by
  obtain ⟨hk, hresp⟩ := findParts_ok_inv h
  subst hresp
  obtain ⟨h1, h2⟩ := organicLoop_no_scrape req sc hs org (shoppingPhase req sh) 0
  refine ⟨h1, ?_⟩
  intro v hv
  have hv2 : v ∈ (discovered req sh org sc).mergeSort confDesc := hv
  rw [List.mem_mergeSort] at hv2
  rcases h2 v hv2 with hi | ⟨raw, rfl⟩
  · obtain ⟨raw, _, rfl⟩ := List.mem_map.mp hi
    show serperSnippet ≠ pageScrape
    decide
  · show serperSnippet ≠ pageScrape
    decide

/-- Witness for C8 on a concrete scraping-disabled request. -/
theorem no_scraping_no_slow_path_witness :
    reqBase.include_scraping = false ∧
    findParts true reqBase [rawNoLink] [] (fun _ => none) = Except.ok respSingle ∧
    (respSingle.slow_path_count = 0 ∧
     ∀ v ∈ respSingle.results, v.source_type ≠ pageScrape) :=
  ⟨rfl, eval_single,
   no_scraping_no_slow_path true reqBase [rawNoLink] [] (fun _ => none)
     respSingle rfl eval_single⟩

/-! ## C9 — missing credential: the claimed 503 path does not exist

The claim (spec Scenario C) states the intended behavior, but the code
cannot produce it: `Settings` declares no `SERPER_API_KEY` field and
ignores extra environment entries, so the credential read raises
`AttributeError` — already inside `_validate_config` when the
module-level `WebAgentService()` singleton is constructed at import,
and again at `_search_serper` line 132 if a request were processed.
The `ValueError` branch is dead code, and the controller's generic
handler would turn the real failure into HTTP 500, not 503. -/

/-- C9 (code bug): against the committed `Settings`, the credential read
raises `AttributeError`, service construction itself fails, the
`ValueError` the spec's service-unavailable condition relies on is
never raised, and the controller maps the real exception to HTTP 500 —
not the claimed 503. -/
theorem missing_key_not_service_unavailable :
    settingsSerperApiKey = Except.error PyError.attributeError ∧
    validateConfig = Except.error PyError.attributeError ∧
    serperCredentialCheck = Except.error PyError.attributeError ∧
    serperCredentialCheck ≠ Except.error PyError.valueError ∧
    controllerStatus PyError.attributeError = HTTP_500_INTERNAL_SERVER_ERROR ∧
    controllerStatus PyError.attributeError ≠ HTTP_503_SERVICE_UNAVAILABLE ∧
    (∀ (req : PartSearchRequest) (sh org : List RawResult)
        (sc : String → Option Extracted),
      searchPartsController false req sh org sc =
        Except.error HTTP_500_INTERNAL_SERVER_ERROR) := by
  refine ⟨rfl, rfl, rfl, ?_, rfl, ?_, fun req sh org sc => rfl⟩
  · intro hcon
    exact PyError.noConfusion (Except.error.inj hcon)
  · intro hcon
    exact absurd hcon (by decide)

/-! ## C10 — currency-marker priority -/

/-- A raw shopping listing whose price string carries both an LKR marker
(`Rs`) and a USD marker. -/
def rawMulti : RawResult :=
  { price := some "Rs 460 USD", rating := none, reviews := none,
    source := some "ACME", site := none, link := some "https://acme.lk/p",
    title := some "B2", imageUrl := none, snippet := none, description := none }

/-- C10: when a parsed listing has a price field, the inferred currency
follows the fixed priority of the source's `elif` chain — any USD
marker (`"USD"` or `"$"`) wins over any LKR marker (`"LKR"` or `"Rs"`),
which wins over any EUR marker (`"EUR"` or the file's euro-sign bytes);
with no recognized marker the currency stays the `"LKR"` default. -/
theorem currency_marker_priority (raw : RawResult) (ps : String) (st : String)
    (hp : raw.price = some ps) :
    ((strContains ps "USD" || strContains ps "$") = true →
      (parseSerperResult raw st).currency = "USD") ∧
    ((strContains ps "USD" || strContains ps "$") = false →
      (strContains ps "LKR" || strContains ps "Rs") = true →
      (parseSerperResult raw st).currency = "LKR") ∧
    ((strContains ps "USD" || strContains ps "$") = false →
      (strContains ps "LKR" || strContains ps "Rs") = false →
      (strContains ps "EUR" || strContains ps euroMarker) = true →
      (parseSerperResult raw st).currency = "EUR") ∧
    ((strContains ps "USD" || strContains ps "$") = false →
      (strContains ps "LKR" || strContains ps "Rs") = false →
      (strContains ps "EUR" || strContains ps euroMarker) = false →
      (parseSerperResult raw st).currency = "LKR") := by
  have hc : (parseSerperResult raw st).currency = inferCurrency ps := by
    show parsedCurrency raw = inferCurrency ps
    unfold parsedCurrency
    rw [hp]
  refine ⟨fun h1 => ?_, fun h1 h2 => ?_, fun h1 h2 h3 => ?_, fun h1 h2 h3 => ?_⟩
  · rw [hc]
    unfold inferCurrency
    rw [if_pos h1]
  · rw [hc]
    unfold inferCurrency
    rw [if_neg (by simp [h1]), if_pos h2]
  · rw [hc]
    unfold inferCurrency
    rw [if_neg (by simp [h1]), if_neg (by simp [h2]), if_pos h3]
  · rw [hc]
    unfold inferCurrency
    rw [if_neg (by simp [h1]), if_neg (by simp [h2]), if_neg (by simp [h3])]

/-- Witness for C10: a price string with both an LKR marker and a USD
marker resolves to USD. -/
theorem currency_marker_priority_witness :
    rawMulti.price = some "Rs 460 USD" ∧
    (strContains "Rs 460 USD" "USD" || strContains "Rs 460 USD" "$") = true ∧
    (strContains "Rs 460 USD" "LKR" || strContains "Rs 460 USD" "Rs") = true ∧
    (parseSerperResult rawMulti serperSnippet).currency = "USD" :=
  ⟨rfl, by decide, by decide,
   (currency_marker_priority rawMulti "Rs 460 USD" serperSnippet rfl).1 (by decide)⟩

end PartFinder
